import Mathlib

/-!
Verification of the ENS wallet-action decorator and the chain contract
directory, shallowly embedded from
`src/packages/ensjs/src/clients/decorators/wallet.ts` and
`src/packages/ensjs/src/contracts/consts.ts`.

The decorator layer is an object-literal factory: `ensWalletActions client`
returns a fresh object whose every method forwards the whole parameter object,
together with the client captured at extension time, to an imported external
per-operation write function.  The external write functions live outside the
embedded sources; they are modelled as an explicit environment (`WriteFns`),
abstract in their common result type, so that the decorator can be studied for
any behaviour of its collaborators.
-/

namespace Ens

/-- An Ethereum address, kept as the hex string literal that appears in the
source table. -/
abbrev Address := String

/-- `supportedChains` from `contracts/consts.ts` (line 4). -/
def supportedChains : List String := ["homestead", "goerli"]

/-- `supportedContracts` from `contracts/consts.ts` (lines 5-14). -/
def supportedContracts : List String :=
  [ "ensBaseRegistrarImplementation"
  , "ensDnsRegistrar"
  , "ensEthRegistrarController"
  , "ensNameWrapper"
  , "ensPublicResolver"
  , "ensReverseRegistrar"
  , "ensBulkRenewal"
  , "ensDnssecImpl" ]

/-- viem's `ChainContract`, restricted to the `address` field the table uses. -/
structure ChainContract where
  address : Address
deriving DecidableEq, Repr

/-- The `EnsChainContracts` shape of `contracts/consts.ts`: one entry per
contract role. -/
structure EnsChainContracts where
  ensBaseRegistrarImplementation : ChainContract
  ensDnsRegistrar : ChainContract
  ensEthRegistrarController : ChainContract
  ensNameWrapper : ChainContract
  ensPublicResolver : ChainContract
  ensReverseRegistrar : ChainContract
  ensBulkRenewal : ChainContract
  ensDnssecImpl : ChainContract
deriving DecidableEq, Repr

/-- The `homestead` entry of the `addresses` table (`contracts/consts.ts`
lines 20-45). -/
def homesteadAddresses : EnsChainContracts :=
  { ensBaseRegistrarImplementation :=
      ⟨"0x57f1887a8bf19b14fc0df6fd9b2acc9af147ea85"⟩
  , ensDnsRegistrar := ⟨"0x58774Bb8acD458A640aF0B88238369A167546ef2"⟩
  , ensEthRegistrarController := ⟨"0x253553366Da8546fC250F225fe3d25d0C782303b"⟩
  , ensNameWrapper := ⟨"0xD4416b13d2b3a9aBae7AcD5D6C2BbDBE25686401"⟩
  , ensPublicResolver := ⟨"0x231b0Ee14048e9dCcD1d247744d114a4EB5E8E63"⟩
  , ensReverseRegistrar := ⟨"0xa58E81fe9b61B5c3fE2AFD33CF304c454AbFc7Cb"⟩
  , ensBulkRenewal := ⟨"0xa12159e5131b1eEf6B4857EEE3e1954744b5033A"⟩
  , ensDnssecImpl := ⟨"0x21745FF62108968fBf5aB1E07961CC0FCBeB2364"⟩ }

/-- The `goerli` entry of the `addresses` table (`contracts/consts.ts`
lines 46-71). -/
def goerliAddresses : EnsChainContracts :=
  { ensBaseRegistrarImplementation :=
      ⟨"0x57f1887a8bf19b14fc0df6fd9b2acc9af147ea85"⟩
  , ensDnsRegistrar := ⟨"0x8edc487D26F6c8Fa76e032066A3D4F87E273515d"⟩
  , ensEthRegistrarController := ⟨"0xCc5e7dB10E65EED1BBD105359e7268aa660f6734"⟩
  , ensNameWrapper := ⟨"0x114D4603199df73e7D157787f8778E21fCd13066"⟩
  , ensPublicResolver := ⟨"0xd7a4F6473f32aC2Af804B3686AE8F19E48B8fF5f"⟩
  , ensReverseRegistrar := ⟨"0x6d9F26FfBcF1c6f0bAe9F2C1f7fBe8eE6B1d8d4d"⟩
  , ensBulkRenewal := ⟨"0x6d9F26FfBcF1c6f0bAe9F2C1f7fBe8eE6B1d8d4d"⟩
  , ensDnssecImpl := ⟨"0xF427c4AdED8B6dfde604865c1a7E953B160C26f0"⟩ }

/-- The `addresses` table (`contracts/consts.ts` lines 19-72), keyed by chain
name.  Chains outside the two keys of the source literal have no entry. -/
def addresses (chain : String) : Option EnsChainContracts :=
  if chain = "homestead" then some homesteadAddresses
  else if chain = "goerli" then some goerliAddresses
  else none

/-- Role lookup inside one chain entry: the property access
`addresses[chain][role]`.  Roles outside the eight fields of the source
literal have no entry. -/
def EnsChainContracts.lookupRole (t : EnsChainContracts) (role : String) :
    Option ChainContract :=
  if role = "ensBaseRegistrarImplementation" then
    some t.ensBaseRegistrarImplementation
  else if role = "ensDnsRegistrar" then some t.ensDnsRegistrar
  else if role = "ensEthRegistrarController" then
    some t.ensEthRegistrarController
  else if role = "ensNameWrapper" then some t.ensNameWrapper
  else if role = "ensPublicResolver" then some t.ensPublicResolver
  else if role = "ensReverseRegistrar" then some t.ensReverseRegistrar
  else if role = "ensBulkRenewal" then some t.ensBulkRenewal
  else if role = "ensDnssecImpl" then some t.ensDnssecImpl
  else none

/-- Dynamic reading of the type `CheckedChainWithEns` (`contracts/consts.ts`
lines 124-130): a chain whose `network` is a supported chain is extended with
that network's contract table; any other chain resolves to `never`, i.e. is
rejected. -/
def checkedChainWithEns (network : String) : Option EnsChainContracts :=
  if network ∈ supportedChains then addresses network else none

/-- Failures of contract-address resolution, raised before any submission. -/
inductive LookupFailure where
  | unsupportedChain
  | unknownRole
deriving DecidableEq, Repr

/-- Contract-address resolution over the directory: the chain is checked via
`checkedChainWithEns` (the dynamic reading of the source's type-level guard)
before any role lookup. -/
def resolveContractAddress (network role : String) :
    Except LookupFailure Address :=
  match checkedChainWithEns network with
  | none => Except.error LookupFailure.unsupportedChain
  | some t =>
    match t.lookupRole role with
    | none => Except.error LookupFailure.unknownRole
    | some c => Except.ok c.address

/-- Modelled from the spec: the submission primitive `submitWrite` is an
external collaborator (spec section 6); this glue submits only after a
successful address resolution, and the list component records the address of
every submission that was attempted. -/
def resolveAndSubmit (submit : Address → String) (network role : String) :
    List Address × Except LookupFailure String :=
  match resolveContractAddress network role with
  | Except.error e => ([], Except.error e)
  | Except.ok a => ([a], Except.ok (submit a))

/-- viem's `WalletClient`, restricted to the opaque account and chain context
the decorator carries around by reference. -/
structure WalletClient where
  chainNetwork : String
  account : Option String
deriving DecidableEq, Repr

/-- The open-ended rest (`...txArgs`) of every parameter object: transaction
level overrides forwarded to the submission call. -/
structure TxOverrides where
  gas : Option Nat
  nonce : Option Nat
  maxFeePerGas : Option Nat
deriving DecidableEq, Repr

/-- `CommitNameParameters`, with the fields named by the destructuring pattern
of `wallet.ts` lines 99-109. -/
structure CommitNameParameters where
  name : String
  owner : Address
  duration : Nat
  secret : String
  resolverAddress : Option Address
  records : Option String
  reverseRecord : Option Bool
  fuses : Option Nat
  txArgs : TxOverrides
deriving DecidableEq, Repr

/-- `CreateSubnameParameters` (`wallet.ts` lines 135-143). -/
structure CreateSubnameParameters where
  name : String
  contract : String
  owner : Address
  resolverAddress : Option Address
  expiry : Option Nat
  fuses : Option Nat
  txArgs : TxOverrides
deriving DecidableEq, Repr

/-- `DeleteSubnameParameters` (`wallet.ts` lines 168-173). -/
structure DeleteSubnameParameters where
  name : String
  contract : String
  asOwner : Option Bool
  txArgs : TxOverrides
deriving DecidableEq, Repr

/-- `RegisterNameParameters` (`wallet.ts` lines 214-225); `value` is the
transaction value override. -/
structure RegisterNameParameters where
  name : String
  owner : Address
  duration : Nat
  secret : String
  resolverAddress : Option Address
  records : Option String
  reverseRecord : Option Bool
  fuses : Option Nat
  value : Option Nat
  txArgs : TxOverrides
deriving DecidableEq, Repr

/-- `RenewNamesParameters` (`wallet.ts` lines 263-268). -/
structure RenewNamesParameters where
  nameOrNames : List String
  duration : Nat
  value : Option Nat
  txArgs : TxOverrides
deriving DecidableEq, Repr

/-- `SetAbiRecordParameters` (`wallet.ts` lines 297-302). -/
structure SetAbiRecordParameters where
  name : String
  encodedAbi : String
  resolverAddress : Option Address
  txArgs : TxOverrides
deriving DecidableEq, Repr

/-- `SetAddressRecordParameters` (`wallet.ts` lines 329-335); here `value` is
the record value, not a transaction override. -/
structure SetAddressRecordParameters where
  name : String
  coin : String
  value : String
  resolverAddress : Option Address
  txArgs : TxOverrides
deriving DecidableEq, Repr

/-- `SetChildFusesParameters` (`wallet.ts` lines 364-369). -/
structure SetChildFusesParameters where
  name : String
  fuses : Nat
  expiry : Option Nat
  txArgs : TxOverrides
deriving DecidableEq, Repr

/-- `SetContentHashRecordParameters` (`wallet.ts` lines 395-400). -/
structure SetContentHashRecordParameters where
  name : String
  contentHash : Option String
  resolverAddress : Option Address
  txArgs : TxOverrides
deriving DecidableEq, Repr

/-- `SetFusesParameters` (`wallet.ts` lines 427-431). -/
structure SetFusesParameters where
  name : String
  fuses : Nat
  txArgs : TxOverrides
deriving DecidableEq, Repr

/-- `SetPrimaryNameParameters` (`wallet.ts` lines 455-460). -/
structure SetPrimaryNameParameters where
  name : String
  address : Option Address
  resolverAddress : Option Address
  txArgs : TxOverrides
deriving DecidableEq, Repr

/-- `SetRecordsParameters` (`wallet.ts` lines 492-501). -/
structure SetRecordsParameters where
  name : String
  resolverAddress : Option Address
  clearRecords : Option Bool
  contentHash : Option String
  texts : List (String × String)
  coins : List (String × String)
  abi : Option String
  txArgs : TxOverrides
deriving DecidableEq, Repr

/-- `SetResolverParameters` (`wallet.ts` lines 527-532). -/
structure SetResolverParameters where
  name : String
  contract : String
  resolverAddress : Address
  txArgs : TxOverrides
deriving DecidableEq, Repr

/-- `SetTextRecordParameters` (`wallet.ts` lines 559-565); here `value` is the
text-record value. -/
structure SetTextRecordParameters where
  name : String
  key : String
  value : Option String
  resolverAddress : Option Address
  txArgs : TxOverrides
deriving DecidableEq, Repr

/-- `TransferNameParameters` (`wallet.ts` lines 591-598). -/
structure TransferNameParameters where
  name : String
  newOwnerAddress : Address
  contract : String
  reclaim : Option Bool
  asParent : Option Bool
  txArgs : TxOverrides
deriving DecidableEq, Repr

/-- `UnwrapNameParameters` (`wallet.ts` lines 624-629). -/
structure UnwrapNameParameters where
  name : String
  newOwnerAddress : Option Address
  newRegistrantAddress : Option Address
  txArgs : TxOverrides
deriving DecidableEq, Repr

/-- `WrapNameParameters` (`wallet.ts` lines 655-661). -/
structure WrapNameParameters where
  name : String
  newOwnerAddress : Address
  fuses : Option Nat
  resolverAddress : Option Address
  txArgs : TxOverrides
deriving DecidableEq, Repr

/-- The seventeen external per-operation write functions imported at the top
of `wallet.ts` (the modules `functions/write/commitName` and its siblings,
external collaborators of the decorator).  `R` abstracts the promised result
type they share in a given scenario. -/
structure WriteFns (R : Type) where
  commitName : WalletClient → CommitNameParameters → R
  createSubname : WalletClient → CreateSubnameParameters → R
  deleteSubname : WalletClient → DeleteSubnameParameters → R
  registerName : WalletClient → RegisterNameParameters → R
  renewNames : WalletClient → RenewNamesParameters → R
  setAbiRecord : WalletClient → SetAbiRecordParameters → R
  setAddressRecord : WalletClient → SetAddressRecordParameters → R
  setChildFuses : WalletClient → SetChildFusesParameters → R
  setContentHashRecord : WalletClient → SetContentHashRecordParameters → R
  setFuses : WalletClient → SetFusesParameters → R
  setPrimaryName : WalletClient → SetPrimaryNameParameters → R
  setRecords : WalletClient → SetRecordsParameters → R
  setResolver : WalletClient → SetResolverParameters → R
  setTextRecord : WalletClient → SetTextRecordParameters → R
  transferName : WalletClient → TransferNameParameters → R
  unwrapName : WalletClient → UnwrapNameParameters → R
  wrapName : WalletClient → WrapNameParameters → R

/-- The extended surface, `EnsWalletActions` of `wallet.ts` lines 72-667: one
method per operation. -/
structure EnsWalletActions (R : Type) where
  commitName : CommitNameParameters → R
  createSubname : CreateSubnameParameters → R
  deleteSubname : DeleteSubnameParameters → R
  registerName : RegisterNameParameters → R
  renewNames : RenewNamesParameters → R
  setAbiRecord : SetAbiRecordParameters → R
  setAddressRecord : SetAddressRecordParameters → R
  setChildFuses : SetChildFusesParameters → R
  setContentHashRecord : SetContentHashRecordParameters → R
  setFuses : SetFusesParameters → R
  setPrimaryName : SetPrimaryNameParameters → R
  setRecords : SetRecordsParameters → R
  setResolver : SetResolverParameters → R
  setTextRecord : SetTextRecordParameters → R
  transferName : TransferNameParameters → R
  unwrapName : UnwrapNameParameters → R
  wrapName : WrapNameParameters → R

/-- `ensWalletActions` (`wallet.ts` lines 683-708): builds a new object whose
every method forwards the whole parameter object to its external write
function together with the client captured at extension time. -/
def ensWalletActions {R : Type} (fns : WriteFns R)
    (client : WalletClient) : EnsWalletActions R where
  commitName := fun parameters => fns.commitName client parameters
  createSubname := fun parameters => fns.createSubname client parameters
  deleteSubname := fun parameters => fns.deleteSubname client parameters
  registerName := fun parameters => fns.registerName client parameters
  renewNames := fun parameters => fns.renewNames client parameters
  setAbiRecord := fun parameters => fns.setAbiRecord client parameters
  setAddressRecord := fun parameters => fns.setAddressRecord client parameters
  setChildFuses := fun parameters => fns.setChildFuses client parameters
  setContentHashRecord := fun parameters =>
    fns.setContentHashRecord client parameters
  setFuses := fun parameters => fns.setFuses client parameters
  setPrimaryName := fun parameters => fns.setPrimaryName client parameters
  setRecords := fun parameters => fns.setRecords client parameters
  setResolver := fun parameters => fns.setResolver client parameters
  setTextRecord := fun parameters => fns.setTextRecord client parameters
  transferName := fun parameters => fns.transferName client parameters
  unwrapName := fun parameters => fns.unwrapName client parameters
  wrapName := fun parameters => fns.wrapName client parameters

/-- The keys of the object literal returned by `ensWalletActions`, in source
order (`wallet.ts` lines 690-707). -/
def ensWalletActionsKeys : List String :=
  [ "commitName", "createSubname", "deleteSubname", "registerName"
  , "renewNames", "setAbiRecord", "setAddressRecord", "setChildFuses"
  , "setContentHashRecord", "setFuses", "setPrimaryName", "setRecords"
  , "setResolver", "setTextRecord", "transferName", "unwrapName"
  , "wrapName" ]

/-- The operation names exactly as the spec's per-operation contract lists
them, in its kebab-case spelling and order.  This definition follows the
spec's words, to be compared with the key list taken from the source. -/
def specOperationNames : List String :=
  [ "commit-name", "create-subname", "delete-subname", "register-name"
  , "renew-names", "set-abi-record", "set-address-record", "set-child-fuses"
  , "set-content-hash-record", "set-fuses", "set-primary-name", "set-records"
  , "set-resolver", "set-text-record", "transfer-name", "unwrap-name"
  , "wrap-name" ]

/-- Kebab-case to camel-case on the underlying character list: a character
after a dash is upper-cased and the dash dropped. -/
def camelChars : List Char → List Char
  | [] => []
  | '-' :: c :: rest => c.toUpper :: camelChars rest
  | '-' :: [] => []
  | c :: rest => c :: camelChars rest

/-- Kebab-case to camel-case on strings, relating the spec's operation names
to the source's method names. -/
def kebabToCamel (s : String) : String := String.mk (camelChars s.data)

/-- Heap objects, for the allocation semantics of the decorator: a base wallet
client, or the extended actions object, which aggregates the base client by
reference (`ensWalletActions` closes over `client`; it copies nothing). -/
inductive HeapObj where
  | clientObj (c : WalletClient)
  | actionsObj (clientRef : Nat)
deriving DecidableEq, Repr

/-- A heap of JavaScript objects; a reference is an index into the list. -/
structure Heap where
  objs : List HeapObj
deriving DecidableEq, Repr

/-- Dereference. -/
def Heap.lookup (h : Heap) (r : Nat) : Option HeapObj := h.objs[r]?

/-- Allocation of a fresh object: the new reference is the first unused
index. -/
def Heap.alloc (h : Heap) (o : HeapObj) : Heap × Nat :=
  (⟨h.objs ++ [o]⟩, h.objs.length)

/-- Allocation semantics of `ensWalletActions` (`wallet.ts` lines 689-708):
the body is a single object literal, so one call allocates exactly one new
object, holding the given client by reference, and writes to no existing
object. -/
def ensWalletActionsAlloc (h : Heap) (clientRef : Nat) : Heap × Nat :=
  h.alloc (HeapObj.actionsObj clientRef)

/-- The error taxonomy of the spec's section 7; the decorator never inspects
these, so the exact constructors are immaterial to every theorem below. -/
inductive WriteError where
  | validation (msg : String)
  | encoding (msg : String)
  | signing (msg : String)
  | network (msg : String)
  | reverted (msg : String)
deriving DecidableEq, Repr

/-- A transaction hash, opaque to this layer. -/
abbrev TxHash := String

/-- What a settled per-operation promise carries: a transaction hash, or the
error it rejected with. -/
abbrev WriteResult := Except WriteError TxHash

/-- Instrumentation: the same environment with each external write function
additionally logging its own name once, so that the number of calls the
decorator makes is observable in the result. -/
def tracedFns (base : WriteFns WriteResult) :
    WriteFns (List String × WriteResult) where
  commitName := fun c p => (["commitName"], base.commitName c p)
  createSubname := fun c p => (["createSubname"], base.createSubname c p)
  deleteSubname := fun c p => (["deleteSubname"], base.deleteSubname c p)
  registerName := fun c p => (["registerName"], base.registerName c p)
  renewNames := fun c p => (["renewNames"], base.renewNames c p)
  setAbiRecord := fun c p => (["setAbiRecord"], base.setAbiRecord c p)
  setAddressRecord := fun c p =>
    (["setAddressRecord"], base.setAddressRecord c p)
  setChildFuses := fun c p => (["setChildFuses"], base.setChildFuses c p)
  setContentHashRecord := fun c p =>
    (["setContentHashRecord"], base.setContentHashRecord c p)
  setFuses := fun c p => (["setFuses"], base.setFuses c p)
  setPrimaryName := fun c p => (["setPrimaryName"], base.setPrimaryName c p)
  setRecords := fun c p => (["setRecords"], base.setRecords c p)
  setResolver := fun c p => (["setResolver"], base.setResolver c p)
  setTextRecord := fun c p => (["setTextRecord"], base.setTextRecord c p)
  transferName := fun c p => (["transferName"], base.transferName c p)
  unwrapName := fun c p => (["unwrapName"], base.unwrapName c p)
  wrapName := fun c p => (["wrapName"], base.wrapName c p)

/-- A probe environment in which every external write function reports the
client it was handed, making visible which account and chain context each
method of an extended object binds. -/
def clientProbe : WriteFns WalletClient where
  commitName := fun c _ => c
  createSubname := fun c _ => c
  deleteSubname := fun c _ => c
  registerName := fun c _ => c
  renewNames := fun c _ => c
  setAbiRecord := fun c _ => c
  setAddressRecord := fun c _ => c
  setChildFuses := fun c _ => c
  setContentHashRecord := fun c _ => c
  setFuses := fun c _ => c
  setPrimaryName := fun c _ => c
  setRecords := fun c _ => c
  setResolver := fun c _ => c
  setTextRecord := fun c _ => c
  transferName := fun c _ => c
  unwrapName := fun c _ => c
  wrapName := fun c _ => c

/-- A probe environment whose register-name function reports the transaction
value override it received; the other operations report nothing. -/
def registerValueProbe : WriteFns (Option Nat) where
  commitName := fun _ _ => none
  createSubname := fun _ _ => none
  deleteSubname := fun _ _ => none
  registerName := fun _ p => p.value
  renewNames := fun _ _ => none
  setAbiRecord := fun _ _ => none
  setAddressRecord := fun _ _ => none
  setChildFuses := fun _ _ => none
  setContentHashRecord := fun _ _ => none
  setFuses := fun _ _ => none
  setPrimaryName := fun _ _ => none
  setRecords := fun _ _ => none
  setResolver := fun _ _ => none
  setTextRecord := fun _ _ => none
  transferName := fun _ _ => none
  unwrapName := fun _ _ => none
  wrapName := fun _ _ => none

/-- An environment in which every external write function rejects with a
revert, exercising the propagation path. -/
def revertedFns : WriteFns WriteResult where
  commitName := fun _ _ => Except.error (WriteError.reverted "reverted")
  createSubname := fun _ _ => Except.error (WriteError.reverted "reverted")
  deleteSubname := fun _ _ => Except.error (WriteError.reverted "reverted")
  registerName := fun _ _ => Except.error (WriteError.reverted "reverted")
  renewNames := fun _ _ => Except.error (WriteError.reverted "reverted")
  setAbiRecord := fun _ _ => Except.error (WriteError.reverted "reverted")
  setAddressRecord := fun _ _ => Except.error (WriteError.reverted "reverted")
  setChildFuses := fun _ _ => Except.error (WriteError.reverted "reverted")
  setContentHashRecord := fun _ _ =>
    Except.error (WriteError.reverted "reverted")
  setFuses := fun _ _ => Except.error (WriteError.reverted "reverted")
  setPrimaryName := fun _ _ => Except.error (WriteError.reverted "reverted")
  setRecords := fun _ _ => Except.error (WriteError.reverted "reverted")
  setResolver := fun _ _ => Except.error (WriteError.reverted "reverted")
  setTextRecord := fun _ _ => Except.error (WriteError.reverted "reverted")
  transferName := fun _ _ => Except.error (WriteError.reverted "reverted")
  unwrapName := fun _ _ => Except.error (WriteError.reverted "reverted")
  wrapName := fun _ _ => Except.error (WriteError.reverted "reverted")

/-- Modelled from the spec: the documented default for the `asOwner` flag of
delete-subname when the caller omits it (spec section 4.1; the write function
`functions/write/deleteSubname` is outside the embedded sources). -/
def asOwnerDefault : Bool := false

/-- Modelled from the spec: the documented default for the `reclaim` flag of
transfer-name when omitted. -/
def reclaimDefault : Bool := false

/-- Modelled from the spec: the documented default for the `asParent` flag of
transfer-name when omitted. -/
def asParentDefault : Bool := false

/-- Modelled from the spec: the validated input the delete-subname encoder
receives, every flag resolved. -/
structure DeleteSubnameEncoderInput where
  name : String
  contract : String
  asOwner : Bool
  txArgs : TxOverrides
deriving DecidableEq, Repr

/-- Modelled from the spec: the destructuring and default-derivation step of
delete-subname, performed before the encoder is called (spec section 4.1
processing; the write function itself is outside the embedded sources). -/
def deleteSubnameDerive (p : DeleteSubnameParameters) :
    DeleteSubnameEncoderInput :=
  { name := p.name
  , contract := p.contract
  , asOwner := p.asOwner.getD asOwnerDefault
  , txArgs := p.txArgs }

/-- Modelled from the spec: the delete-subname write function, which derives
defaults and only then delegates to its external encoder. -/
def deleteSubnameWrite {R : Type}
    (encoder : WalletClient → DeleteSubnameEncoderInput → R)
    (client : WalletClient) (p : DeleteSubnameParameters) : R :=
  encoder client (deleteSubnameDerive p)

/-- Modelled from the spec: the validated input the transfer-name encoder
receives, every flag resolved. -/
structure TransferNameEncoderInput where
  name : String
  newOwnerAddress : Address
  contract : String
  reclaim : Bool
  asParent : Bool
  txArgs : TxOverrides
deriving DecidableEq, Repr

/-- Modelled from the spec: the destructuring and default-derivation step of
transfer-name, performed before the encoder is called. -/
def transferNameDerive (p : TransferNameParameters) :
    TransferNameEncoderInput :=
  { name := p.name
  , newOwnerAddress := p.newOwnerAddress
  , contract := p.contract
  , reclaim := p.reclaim.getD reclaimDefault
  , asParent := p.asParent.getD asParentDefault
  , txArgs := p.txArgs }

/-- A concrete client for witnesses. -/
def exampleClient : WalletClient :=
  { chainNetwork := "homestead"
  , account := some "0xFe89cc7aBB2C4183683ab71653C4cdc9B02D44b7" }

/-- Empty transaction overrides, for witnesses. -/
def noOverrides : TxOverrides := { gas := none, nonce := none
                                 , maxFeePerGas := none }

/-- A concrete commit-name parameter object, for witnesses. -/
def exampleCommitParams : CommitNameParameters :=
  { name := "example.eth"
  , owner := "0xFe89cc7aBB2C4183683ab71653C4cdc9B02D44b7"
  , duration := 31536000
  , secret := "0x00"
  , resolverAddress := none
  , records := none
  , reverseRecord := none
  , fuses := none
  , txArgs := noOverrides }

/-- A concrete delete-subname parameter object omitting `asOwner`, for
witnesses. -/
def exampleDeleteParams : DeleteSubnameParameters :=
  { name := "sub.ens.eth"
  , contract := "registry"
  , asOwner := none
  , txArgs := noOverrides }

/-- A concrete transfer-name parameter object carrying `reclaim := some true`,
for witnesses. -/
def exampleTransferParams : TransferNameParameters :=
  { name := "ens.eth"
  , newOwnerAddress := "0xFe89cc7aBB2C4183683ab71653C4cdc9B02D44b7"
  , contract := "registrar"
  , reclaim := some true
  , asParent := none
  , txArgs := noOverrides }

/-- A one-client heap, for witnesses. -/
def exampleHeap : Heap := ⟨[HeapObj.clientObj exampleClient]⟩

/-- C1 (counterexample): the claim counts 16 operations on the extended
object, but the object literal returned by `ensWalletActions` has 17 keys. -/
theorem ensWalletActions_key_count_is_not_sixteen :
    ¬ ensWalletActionsKeys.length = 16 := by decide

/-- C1 (amended): the set of keys of the object returned by
`ensWalletActions` is exactly the operation set listed in the per-operation
contract — the camel-case forms of the listed kebab-case names, in the same
order — and it has 17 members, with no duplicates. -/
theorem ensWalletActions_keys_exactly_spec_operations :
    specOperationNames.map kebabToCamel = ensWalletActionsKeys ∧
    ensWalletActionsKeys.length = 17 ∧
    ensWalletActionsKeys.Nodup := by decide

/-- C2: `ensWalletActions` allocates one fresh object aggregating the base
client by reference: the returned reference is new, every pre-existing object
(the base client included) is left untouched, and extending the same base
twice yields two distinct extended objects, each referencing the same base
and sharing no state of their own. -/
theorem ensWalletActions_allocates_fresh_never_mutates (h : Heap) (r : Nat) :
    (ensWalletActionsAlloc h r).2 = h.objs.length ∧
    (∀ i, i < h.objs.length →
      ((ensWalletActionsAlloc h r).1).lookup i = h.lookup i) ∧
    (ensWalletActionsAlloc (ensWalletActionsAlloc h r).1 r).2 ≠
      (ensWalletActionsAlloc h r).2 ∧
    ((ensWalletActionsAlloc (ensWalletActionsAlloc h r).1 r).1).lookup
      (ensWalletActionsAlloc h r).2 = some (HeapObj.actionsObj r) ∧
    ((ensWalletActionsAlloc (ensWalletActionsAlloc h r).1 r).1).lookup
      (ensWalletActionsAlloc (ensWalletActionsAlloc h r).1 r).2 =
      some (HeapObj.actionsObj r) ∧
    (∀ i, i < h.objs.length →
      ((ensWalletActionsAlloc (ensWalletActionsAlloc h r).1 r).1).lookup i =
        h.lookup i) := by
  refine ⟨rfl, ?_, ?_, ?_, ?_, ?_⟩
  · intro i hi
    simp only [ensWalletActionsAlloc, Heap.alloc, Heap.lookup]
    rw [List.getElem?_append_left hi]
  · simp only [ensWalletActionsAlloc, Heap.alloc, List.length_append,
      List.length_cons, List.length_nil]
    omega
  · have hlt : h.objs.length <
        (h.objs ++ [HeapObj.actionsObj r]).length := by
      simp
    simp only [ensWalletActionsAlloc, Heap.alloc, Heap.lookup]
    rw [List.getElem?_append_left hlt]
    exact List.getElem?_concat_length _ _
  · simp only [ensWalletActionsAlloc, Heap.alloc, Heap.lookup]
    exact List.getElem?_concat_length _ _
  · intro i hi
    have hi1 : i < (h.objs ++ [HeapObj.actionsObj r]).length := by
      simp
      omega
    simp only [ensWalletActionsAlloc, Heap.alloc, Heap.lookup]
    rw [List.getElem?_append_left hi1, List.getElem?_append_left hi]

/-- C2 (witness): on a one-client heap, extension returns the fresh
reference 1, leaves the client at reference 0 unchanged, and a second
extension returns a different reference. -/
theorem ensWalletActions_allocates_fresh_never_mutates_witness :
    (ensWalletActionsAlloc exampleHeap 0).2 = 1 ∧
    ((ensWalletActionsAlloc exampleHeap 0).1).lookup 0 =
      exampleHeap.lookup 0 ∧
    (ensWalletActionsAlloc (ensWalletActionsAlloc exampleHeap 0).1 0).2 ≠
      (ensWalletActionsAlloc exampleHeap 0).2 :=
  ⟨(ensWalletActions_allocates_fresh_never_mutates exampleHeap 0).1,
   (ensWalletActions_allocates_fresh_never_mutates exampleHeap 0).2.1 0
     (by decide),
   (ensWalletActions_allocates_fresh_never_mutates exampleHeap 0).2.2.1⟩

/-- C3: whenever an external per-operation write function rejects with an
error, the corresponding method of the extended object returns that very
error, for every one of the seventeen operations: the decorator neither
translates, wraps nor swallows failures. -/
theorem ensWalletActions_propagates_errors_unmodified
    (fns : WriteFns WriteResult) (client : WalletClient) :
    (∀ p e, fns.commitName client p = Except.error e →
      (ensWalletActions fns client).commitName p = Except.error e) ∧
    (∀ p e, fns.createSubname client p = Except.error e →
      (ensWalletActions fns client).createSubname p = Except.error e) ∧
    (∀ p e, fns.deleteSubname client p = Except.error e →
      (ensWalletActions fns client).deleteSubname p = Except.error e) ∧
    (∀ p e, fns.registerName client p = Except.error e →
      (ensWalletActions fns client).registerName p = Except.error e) ∧
    (∀ p e, fns.renewNames client p = Except.error e →
      (ensWalletActions fns client).renewNames p = Except.error e) ∧
    (∀ p e, fns.setAbiRecord client p = Except.error e →
      (ensWalletActions fns client).setAbiRecord p = Except.error e) ∧
    (∀ p e, fns.setAddressRecord client p = Except.error e →
      (ensWalletActions fns client).setAddressRecord p = Except.error e) ∧
    (∀ p e, fns.setChildFuses client p = Except.error e →
      (ensWalletActions fns client).setChildFuses p = Except.error e) ∧
    (∀ p e, fns.setContentHashRecord client p = Except.error e →
      (ensWalletActions fns client).setContentHashRecord p =
        Except.error e) ∧
    (∀ p e, fns.setFuses client p = Except.error e →
      (ensWalletActions fns client).setFuses p = Except.error e) ∧
    (∀ p e, fns.setPrimaryName client p = Except.error e →
      (ensWalletActions fns client).setPrimaryName p = Except.error e) ∧
    (∀ p e, fns.setRecords client p = Except.error e →
      (ensWalletActions fns client).setRecords p = Except.error e) ∧
    (∀ p e, fns.setResolver client p = Except.error e →
      (ensWalletActions fns client).setResolver p = Except.error e) ∧
    (∀ p e, fns.setTextRecord client p = Except.error e →
      (ensWalletActions fns client).setTextRecord p = Except.error e) ∧
    (∀ p e, fns.transferName client p = Except.error e →
      (ensWalletActions fns client).transferName p = Except.error e) ∧
    (∀ p e, fns.unwrapName client p = Except.error e →
      (ensWalletActions fns client).unwrapName p = Except.error e) ∧
    (∀ p e, fns.wrapName client p = Except.error e →
      (ensWalletActions fns client).wrapName p = Except.error e) :=
  ⟨fun _ _ h => h, fun _ _ h => h, fun _ _ h => h, fun _ _ h => h,
   fun _ _ h => h, fun _ _ h => h, fun _ _ h => h, fun _ _ h => h,
   fun _ _ h => h, fun _ _ h => h, fun _ _ h => h, fun _ _ h => h,
   fun _ _ h => h, fun _ _ h => h, fun _ _ h => h, fun _ _ h => h,
   fun _ _ h => h⟩

/-- C3 (witness): with an environment whose write functions all reject with a
revert, the commit-name method rejects with exactly that revert. -/
theorem ensWalletActions_propagates_errors_unmodified_witness :
    (ensWalletActions revertedFns exampleClient).commitName
      exampleCommitParams = Except.error (WriteError.reverted "reverted") :=
  (ensWalletActions_propagates_errors_unmodified revertedFns
    exampleClient).1 exampleCommitParams (WriteError.reverted "reverted") rfl

/-- C4: every method of the extended object hands its external write function
the very parameter object it was called with — overrides included — for any
result type and any environment; in particular, under a probe environment the
register-name method reports exactly the transaction value override of its
parameter object. -/
theorem ensWalletActions_forwards_parameters_verbatim :
    (∀ (R : Type) (fns : WriteFns R) (client : WalletClient),
      (∀ p, (ensWalletActions fns client).commitName p =
        fns.commitName client p) ∧
      (∀ p, (ensWalletActions fns client).createSubname p =
        fns.createSubname client p) ∧
      (∀ p, (ensWalletActions fns client).deleteSubname p =
        fns.deleteSubname client p) ∧
      (∀ p, (ensWalletActions fns client).registerName p =
        fns.registerName client p) ∧
      (∀ p, (ensWalletActions fns client).renewNames p =
        fns.renewNames client p) ∧
      (∀ p, (ensWalletActions fns client).setAbiRecord p =
        fns.setAbiRecord client p) ∧
      (∀ p, (ensWalletActions fns client).setAddressRecord p =
        fns.setAddressRecord client p) ∧
      (∀ p, (ensWalletActions fns client).setChildFuses p =
        fns.setChildFuses client p) ∧
      (∀ p, (ensWalletActions fns client).setContentHashRecord p =
        fns.setContentHashRecord client p) ∧
      (∀ p, (ensWalletActions fns client).setFuses p =
        fns.setFuses client p) ∧
      (∀ p, (ensWalletActions fns client).setPrimaryName p =
        fns.setPrimaryName client p) ∧
      (∀ p, (ensWalletActions fns client).setRecords p =
        fns.setRecords client p) ∧
      (∀ p, (ensWalletActions fns client).setResolver p =
        fns.setResolver client p) ∧
      (∀ p, (ensWalletActions fns client).setTextRecord p =
        fns.setTextRecord client p) ∧
      (∀ p, (ensWalletActions fns client).transferName p =
        fns.transferName client p) ∧
      (∀ p, (ensWalletActions fns client).unwrapName p =
        fns.unwrapName client p) ∧
      (∀ p, (ensWalletActions fns client).wrapName p =
        fns.wrapName client p)) ∧
    (∀ (client : WalletClient) (p : RegisterNameParameters),
      (ensWalletActions registerValueProbe client).registerName p =
        p.value) :=
  ⟨fun _ _ _ =>
    ⟨fun _ => rfl, fun _ => rfl, fun _ => rfl, fun _ => rfl, fun _ => rfl,
     fun _ => rfl, fun _ => rfl, fun _ => rfl, fun _ => rfl, fun _ => rfl,
     fun _ => rfl, fun _ => rfl, fun _ => rfl, fun _ => rfl, fun _ => rfl,
     fun _ => rfl, fun _ => rfl⟩,
   fun _ _ => rfl⟩

/-- C5: under the instrumented environment, one invocation of any method of
the extended object produces exactly one logged call, the one to its own
external write function, and its settled result is exactly that function's
result — so a failure rejects the whole invocation and no partial-success
state exists. -/
theorem ensWalletActions_invokes_each_operation_exactly_once
    (base : WriteFns WriteResult) (client : WalletClient) :
    (∀ p, (ensWalletActions (tracedFns base) client).commitName p =
      (["commitName"], base.commitName client p)) ∧
    (∀ p, (ensWalletActions (tracedFns base) client).createSubname p =
      (["createSubname"], base.createSubname client p)) ∧
    (∀ p, (ensWalletActions (tracedFns base) client).deleteSubname p =
      (["deleteSubname"], base.deleteSubname client p)) ∧
    (∀ p, (ensWalletActions (tracedFns base) client).registerName p =
      (["registerName"], base.registerName client p)) ∧
    (∀ p, (ensWalletActions (tracedFns base) client).renewNames p =
      (["renewNames"], base.renewNames client p)) ∧
    (∀ p, (ensWalletActions (tracedFns base) client).setAbiRecord p =
      (["setAbiRecord"], base.setAbiRecord client p)) ∧
    (∀ p, (ensWalletActions (tracedFns base) client).setAddressRecord p =
      (["setAddressRecord"], base.setAddressRecord client p)) ∧
    (∀ p, (ensWalletActions (tracedFns base) client).setChildFuses p =
      (["setChildFuses"], base.setChildFuses client p)) ∧
    (∀ p,
      (ensWalletActions (tracedFns base) client).setContentHashRecord p =
      (["setContentHashRecord"], base.setContentHashRecord client p)) ∧
    (∀ p, (ensWalletActions (tracedFns base) client).setFuses p =
      (["setFuses"], base.setFuses client p)) ∧
    (∀ p, (ensWalletActions (tracedFns base) client).setPrimaryName p =
      (["setPrimaryName"], base.setPrimaryName client p)) ∧
    (∀ p, (ensWalletActions (tracedFns base) client).setRecords p =
      (["setRecords"], base.setRecords client p)) ∧
    (∀ p, (ensWalletActions (tracedFns base) client).setResolver p =
      (["setResolver"], base.setResolver client p)) ∧
    (∀ p, (ensWalletActions (tracedFns base) client).setTextRecord p =
      (["setTextRecord"], base.setTextRecord client p)) ∧
    (∀ p, (ensWalletActions (tracedFns base) client).transferName p =
      (["transferName"], base.transferName client p)) ∧
    (∀ p, (ensWalletActions (tracedFns base) client).unwrapName p =
      (["unwrapName"], base.unwrapName client p)) ∧
    (∀ p, (ensWalletActions (tracedFns base) client).wrapName p =
      (["wrapName"], base.wrapName client p)) :=
  ⟨fun _ => rfl, fun _ => rfl, fun _ => rfl, fun _ => rfl, fun _ => rfl,
   fun _ => rfl, fun _ => rfl, fun _ => rfl, fun _ => rfl, fun _ => rfl,
   fun _ => rfl, fun _ => rfl, fun _ => rfl, fun _ => rfl, fun _ => rfl,
   fun _ => rfl, fun _ => rfl⟩

/-- C6: the contract directory is complete: for every supported chain and
every supported contract role, the table lookup carries an address. -/
theorem addresses_complete_for_supported_chains :
    ∀ chain ∈ supportedChains, ∀ role ∈ supportedContracts,
      ((addresses chain).bind
        (fun t => t.lookupRole role)).isSome = true := by decide

/-- C6 (witness): the homestead chain has an entry for the name-wrapper
role. -/
theorem addresses_complete_for_supported_chains_witness :
    ((addresses "homestead").bind
      (fun t => t.lookupRole "ensNameWrapper")).isSome = true :=
  addresses_complete_for_supported_chains "homestead" (by decide)
    "ensNameWrapper" (by decide)

/-- C7: an unsupported chain identifier is rejected by the checked-chain
validation (the dynamic reading of the source's type-level check), and the
resolution pipeline therefore fails with the unsupported-chain error while
attempting no submission at all. -/
theorem unsupported_chain_rejected_before_submission
    (network : String) (hn : network ∉ supportedChains) :
    checkedChainWithEns network = none ∧
    ∀ (submit : Address → String) (role : String),
      resolveAndSubmit submit network role =
        ([], Except.error LookupFailure.unsupportedChain) := by
  have hc : checkedChainWithEns network = none := by
    simp [checkedChainWithEns, hn]
  refine ⟨hc, fun submit role => ?_⟩
  simp [resolveAndSubmit, resolveContractAddress, hc]

/-- C7 (witness): the chain "sepolia" is rejected with no submission. -/
theorem unsupported_chain_rejected_before_submission_witness :
    checkedChainWithEns "sepolia" = none ∧
    resolveAndSubmit id "sepolia" "ensNameWrapper" =
      ([], Except.error LookupFailure.unsupportedChain) :=
  ⟨(unsupported_chain_rejected_before_submission "sepolia" (by decide)).1,
   (unsupported_chain_rejected_before_submission "sepolia" (by decide)).2
     id "ensNameWrapper"⟩

/-- C8: the per-operation processing step destructures the typed fields and
derives the documented defaults before the encoder is called: an omitted
`asOwner`, `reclaim` or `asParent` flag resolves to its documented default, a
present flag is kept, the remaining fields pass through unchanged, and the
write function delegates to its encoder only the derived input. -/
theorem per_operation_default_derivation
    (p : DeleteSubnameParameters) (q : TransferNameParameters) :
    (p.asOwner = none →
      (deleteSubnameDerive p).asOwner = asOwnerDefault) ∧
    (∀ b, p.asOwner = some b → (deleteSubnameDerive p).asOwner = b) ∧
    (deleteSubnameDerive p).name = p.name ∧
    (deleteSubnameDerive p).contract = p.contract ∧
    (deleteSubnameDerive p).txArgs = p.txArgs ∧
    (∀ (R : Type) (encoder : WalletClient → DeleteSubnameEncoderInput → R)
      (client : WalletClient),
      deleteSubnameWrite encoder client p =
        encoder client (deleteSubnameDerive p)) ∧
    (q.reclaim = none → (transferNameDerive q).reclaim = reclaimDefault) ∧
    (∀ b, q.reclaim = some b → (transferNameDerive q).reclaim = b) ∧
    (q.asParent = none →
      (transferNameDerive q).asParent = asParentDefault) ∧
    (∀ b, q.asParent = some b → (transferNameDerive q).asParent = b) := by
  refine ⟨?_, ?_, rfl, rfl, rfl, fun _ _ _ => rfl, ?_, ?_, ?_, ?_⟩
  · intro hnone
    simp [deleteSubnameDerive, hnone]
  · intro b hb
    simp [deleteSubnameDerive, hb]
  · intro hnone
    simp [transferNameDerive, hnone]
  · intro b hb
    simp [transferNameDerive, hb]
  · intro hnone
    simp [transferNameDerive, hnone]
  · intro b hb
    simp [transferNameDerive, hb]

/-- C8 (witness): a delete-subname call omitting `asOwner` resolves the flag
to its documented default, and a transfer-name call carrying
`reclaim := some true` keeps `true`. -/
theorem per_operation_default_derivation_witness :
    (deleteSubnameDerive exampleDeleteParams).asOwner = asOwnerDefault ∧
    (transferNameDerive exampleTransferParams).reclaim = true :=
  ⟨(per_operation_default_derivation exampleDeleteParams
      exampleTransferParams).1 rfl,
   (per_operation_default_derivation exampleDeleteParams
      exampleTransferParams).2.2.2.2.2.2.2.1 true rfl⟩

/-- C9: under a probe environment in which every external write function
reports the client it was handed, every method of an extended object reports
exactly the client supplied at extension time: all seventeen operations share
the one account and chain context bound when `ensWalletActions` was
applied. -/
theorem ensWalletActions_binds_extension_client (client : WalletClient) :
    (∀ p, (ensWalletActions clientProbe client).commitName p = client) ∧
    (∀ p, (ensWalletActions clientProbe client).createSubname p = client) ∧
    (∀ p, (ensWalletActions clientProbe client).deleteSubname p = client) ∧
    (∀ p, (ensWalletActions clientProbe client).registerName p = client) ∧
    (∀ p, (ensWalletActions clientProbe client).renewNames p = client) ∧
    (∀ p, (ensWalletActions clientProbe client).setAbiRecord p = client) ∧
    (∀ p,
      (ensWalletActions clientProbe client).setAddressRecord p = client) ∧
    (∀ p, (ensWalletActions clientProbe client).setChildFuses p = client) ∧
    (∀ p,
      (ensWalletActions clientProbe client).setContentHashRecord p =
        client) ∧
    (∀ p, (ensWalletActions clientProbe client).setFuses p = client) ∧
    (∀ p, (ensWalletActions clientProbe client).setPrimaryName p = client) ∧
    (∀ p, (ensWalletActions clientProbe client).setRecords p = client) ∧
    (∀ p, (ensWalletActions clientProbe client).setResolver p = client) ∧
    (∀ p, (ensWalletActions clientProbe client).setTextRecord p = client) ∧
    (∀ p, (ensWalletActions clientProbe client).transferName p = client) ∧
    (∀ p, (ensWalletActions clientProbe client).unwrapName p = client) ∧
    (∀ p, (ensWalletActions clientProbe client).wrapName p = client) :=
  ⟨fun _ => rfl, fun _ => rfl, fun _ => rfl, fun _ => rfl, fun _ => rfl,
   fun _ => rfl, fun _ => rfl, fun _ => rfl, fun _ => rfl, fun _ => rfl,
   fun _ => rfl, fun _ => rfl, fun _ => rfl, fun _ => rfl, fun _ => rfl,
   fun _ => rfl, fun _ => rfl⟩

/-- C10: the role-to-address mapping is not injective: on goerli the two
distinct roles reverse-registrar and bulk-renewal map to the identical
address, and the base-registrar-implementation role maps to the same address
on homestead and goerli. -/
theorem goerli_role_to_address_not_injective :
    ((addresses "goerli").bind
      (fun t => t.lookupRole "ensReverseRegistrar")) =
      some ⟨"0x6d9F26FfBcF1c6f0bAe9F2C1f7fBe8eE6B1d8d4d"⟩ ∧
    ((addresses "goerli").bind
      (fun t => t.lookupRole "ensBulkRenewal")) =
      some ⟨"0x6d9F26FfBcF1c6f0bAe9F2C1f7fBe8eE6B1d8d4d"⟩ ∧
    ("ensReverseRegistrar" : String) ≠ "ensBulkRenewal" ∧
    homesteadAddresses.ensBaseRegistrarImplementation =
      goerliAddresses.ensBaseRegistrarImplementation := by decide

end Ens
